import Mathlib

/-!
Verification of the FableFlow development server (`dev-server.py`).

The server is modelled as a pure function from an environment (backend
behaviour, filesystem contents, directory of the script) and an inbound
request to a response together with the list of externally visible effects
(backend calls, filesystem reads) the handler performed.

Python strings are sequences of code points, so they are modelled as Lean
`String`s and Python's `str.startswith`, `str.lower`, slicing, etc. are
modelled over `String.data` (the code-point list), which matches Python's
semantics exactly.  Request and response bodies are modelled as `String`s
(byte sequences up to the byte/char distinction, which no claim depends on).
-/

namespace FableFlow

/-- Python `s.startswith(pre)`: code-point prefix test. -/
def pyStartsWith (s pre : String) : Bool :=
  pre.data.isPrefixOf s.data

/-- Python `s.lower()` (ASCII part, which is all header names use). -/
def lowerStr (s : String) : String :=
  String.mk (s.data.map Char.toLower)

/-- Case-insensitive header lookup, as in `email.message.Message.get`
    (used by `self.headers.get('Content-Length', 0)`). -/
def getHeader (hs : List (String × String)) (name : String) : Option String :=
  (hs.find? (fun h => lowerStr h.1 == lowerStr name)).map Prod.snd

/-- Decimal digit-string value; `none` when a non-digit occurs. -/
def digitsVal : List Char → Nat → Option Nat
  | [], acc => some acc
  | c :: cs, acc =>
    if c.isDigit then digitsVal cs (acc * 10 + (c.toNat - 48)) else none

/-- Python `int(s)` on a decimal literal: optional sign then digits;
    `none` models `ValueError` (surrounding whitespace is elided). -/
def pyInt? (s : String) : Option Int :=
  match s.data with
  | [] => none
  | '-' :: [] => none
  | '-' :: cs => (digitsVal cs 0).map (fun n => -(n : Int))
  | '+' :: [] => none
  | '+' :: cs => (digitsVal cs 0).map (fun n => (n : Int))
  | cs => (digitsVal cs 0).map (fun n => (n : Int))

/-- Python `s[:n]` on the inbound stream (`self.rfile.read(n)`). -/
def strTake (s : String) (n : Nat) : String :=
  String.mk (s.data.take n)

/-- An inbound HTTP request as `BaseHTTPRequestHandler` presents it:
    `command`, `path` (origin-form, query string included), parsed headers,
    and `wire`, the bytes available on `self.rfile`. -/
structure Request where
  method : String
  path : String
  headers : List (String × String)
  wire : String
  deriving Repr, DecidableEq

/-- An HTTP response as the handler writes it: status code, the reason /
    message of the status line (`send_response` / `send_error`), headers in
    the order they are sent, and the body. -/
structure Response where
  status : Nat
  reason : String
  headers : List (String × String)
  body : String
  deriving Repr, DecidableEq

/-- The `urllib.request.Request` the proxy constructs (lines 63-68):
    url, method, optional data, and the header mapping passed in — the
    result of `dict(self.headers)`, so duplicate names are already
    collapsed.  (Inside urllib, header names are re-capitalised and
    transport headers such as `Host`/`Content-Length` are defaulted only
    when absent; both are below this model and preserve HTTP header
    semantics.) -/
structure OutboundRequest where
  url : String
  method : String
  data : Option String
  headers : List (String × String)
  deriving Repr, DecidableEq

/-- Externally visible effects of handling one request. -/
inductive Effect where
  | backendCall (out : OutboundRequest)
  | fsRead (path : List String)
  deriving Repr, DecidableEq

/-- What the backend does for one exchange: an HTTP reply (final status,
    headers, body) or a transport-level failure (connection refused, DNS
    failure, timeout) carrying the exception text. -/
inductive BackendResult where
  | reply (status : Nat) (headers : List (String × String)) (body : String)
  | transportFailure (msg : String)
  deriving Repr, DecidableEq

/-- State of the index template file on disk. -/
inductive FileState where
  | absent
  | unreadable (errMsg : String)
  | readable (content : String)
  deriving Repr, DecidableEq

/-- Process-wide configuration and collaborators, fixed at startup:
    the backend, the index template, the static filesystem (a map from
    resolved path segments to file contents), and the directory holding
    `dev-server.py` (`Path(__file__).parent`). -/
structure Env where
  backend : OutboundRequest → BackendResult
  indexFile : FileState
  fs : List String → Option String
  scriptDir : List String

/-- The three CORS headers of `send_cors_headers` (lines 106-110),
    in the order they are sent. -/
def corsHeaders : List (String × String) :=
  [("Access-Control-Allow-Origin", "*"),
   ("Access-Control-Allow-Methods", "GET, POST, PUT, DELETE, OPTIONS"),
   ("Access-Control-Allow-Headers", "Content-Type, Authorization")]

/-- Headers the proxy does not copy back from the backend (line 78). -/
def excludedRelayHeaders : List String :=
  ["content-encoding", "content-length", "transfer-encoding"]

/-- Body of the `BaseHTTPRequestHandler.send_error` HTML error page
    (the stdlib template, abridged to the parts that vary). -/
def errorBody (code : Nat) (msg : String) : String :=
  "Error response: Error code: " ++ toString code ++ ". Message: " ++ msg ++ "."

/-- `BaseHTTPRequestHandler.send_error(code, message)`: the message becomes
    the status-line reason, the headers are the fixed error headers (no CORS
    headers are sent on this path), the body is the stdlib error page. -/
def sendError (code : Nat) (msg : String) : Response :=
  { status := code
    reason := msg
    headers := [("Content-Type", "text/html;charset=utf-8"), ("Connection", "close")]
    body := errorBody code msg }

/-- `int(self.headers.get('Content-Length', 0))` (line 58): `0` when the
    header is absent; `ValueError` (as exception text) when it is present
    but not an integer literal. -/
def contentLengthOf (req : Request) : Except String Int :=
  match getHeader req.headers "Content-Length" with
  | none => Except.ok 0
  | some v =>
    match pyInt? v with
    | some n => Except.ok n
    | none => Except.error ("invalid literal for int() with base 10: " ++ v)

/-- `req_data` (lines 56-60): the first `Content-Length` bytes of the
    stream when the length is positive, otherwise no body at all. -/
def reqData (req : Request) (cl : Int) : Option String :=
  if 0 < cl then some (strTake req.wire cl.toNat) else none

/-- `f"http://localhost:8080{self.path}"` (line 53). -/
def backendUrl (req : Request) : String :=
  "http://localhost:8080" ++ req.path

/-- Python dict assignment `d[k] = v` on an ordered association list:
    an existing exact key keeps its position and gets the new value, a
    new key is appended. -/
def dictInsert (d : List (String × String)) (k v : String) :
    List (String × String) :=
  if d.any (fun p => p.1 == k) then
    d.map (fun p => if p.1 == k then (k, v) else p)
  else d ++ [(k, v)]

/-- Python `dict(self.headers)` (line 67): the `dict` constructor iterates
    `self.headers.keys()` — which lists duplicate names — and reads each
    name through `Message.__getitem__`, which returns the FIRST value
    matching case-insensitively.  Duplicate occurrences of a header name
    therefore collapse to a single entry carrying the first value (the
    repeat re-assigns that same value in place). -/
def pyDictHeaders (hs : List (String × String)) : List (String × String) :=
  hs.foldl (fun d p => dictInsert d p.1 ((getHeader hs p.1).getD p.2)) []

/-- The `urllib.request.Request` built on lines 63-68, its headers the
    `dict(self.headers)` conversion of the inbound ones. -/
def mkOutbound (req : Request) (d : Option String) : OutboundRequest :=
  { url := backendUrl req
    method := req.method
    data := d
    headers := pyDictHeaders req.headers }

/-- The body the proxy forwards, per the Content-Length framing of
    lines 56-60 (`none` also when reading the header raises, in which case
    no backend call happens at all). -/
def inboundBody (req : Request) : Option String :=
  match contentLengthOf req with
  | Except.ok cl => reqData req cl
  | Except.error _ => none

/-- The outbound request the proxy would send, when building it does not
    raise. -/
def outboundOf (req : Request) : Option OutboundRequest :=
  match contentLengthOf req with
  | Except.ok cl => some (mkOutbound req (reqData req cl))
  | Except.error _ => none

/-- Models CPython `urllib.request.urlopen` on one exchange: the response
    object is returned for 2xx statuses; any other final status makes the
    default opener raise `HTTPError` (an exception whose text names the
    status).  Redirect following is below this model: `BackendResult.reply`
    carries the final exchange. -/
def urlopenModel : BackendResult →
    Except String (Nat × List (String × String) × String)
  | BackendResult.transportFailure msg => Except.error msg
  | BackendResult.reply status hs body =>
    if 200 ≤ status ∧ status < 300 then Except.ok (status, hs, body)
    else Except.error ("HTTP Error " ++ toString status)

/-- `proxy_to_backend` (lines 49-87).  Everything runs inside one `try`:
    a `ValueError` from `int(...)` or an exception out of `urlopen`
    (transport failure or `HTTPError`) lands in the `except` arm, which
    answers `send_error(502, f"Backend connection failed: {e}")`. -/
def proxyToBackend (env : Env) (req : Request) : Response × List Effect :=
  match contentLengthOf req with
  | Except.error e =>
    (sendError 502 ("Backend connection failed: " ++ e), [])
  | Except.ok cl =>
    let out := mkOutbound req (reqData req cl)
    match urlopenModel (env.backend out) with
    | Except.error e =>
      (sendError 502 ("Backend connection failed: " ++ e), [Effect.backendCall out])
    | Except.ok (status, hs, body) =>
      ({ status := status
         reason := ""
         headers := corsHeaders ++
           hs.filter (fun h => !(excludedRelayHeaders.contains (lowerStr h.1)))
         body := body },
       [Effect.backendCall out])

/-- Split a code-point list on `'/'` (Python `path.split('/')`). -/
def splitSlashAux : List Char → List Char → List (List Char)
  | [], acc => [acc.reverse]
  | c :: cs, acc =>
    if c = '/' then acc.reverse :: splitSlashAux cs []
    else splitSlashAux cs (c :: acc)

def splitSlash (cs : List Char) : List (List Char) :=
  splitSlashAux cs []

/-- `path.split(stop, 1)[0]`. -/
def stripAfter (stop : Char) (cs : List Char) : List Char :=
  cs.takeWhile (· ≠ stop)

/-- One step of `posixpath.normpath`'s component loop: `''` and `'.'` are
    dropped; `'..'` is kept when the path is relative and nothing precedes
    it (or a kept `'..'` does), pops the previous component when one
    exists, and is dropped at the root of an absolute path. -/
def normStep (absolute : Bool) (acc : List (List Char)) (comp : List Char) :
    List (List Char) :=
  if comp = [] ∨ comp = ['.'] then acc
  else if comp = ['.', '.'] then
    if (!absolute ∧ acc = []) ∨ acc.getLast? = some ['.', '.'] then acc ++ [comp]
    else acc.dropLast
  else acc ++ [comp]

/-- The component list of `posixpath.normpath(path)`. -/
def normComps (absolute : Bool) (comps : List (List Char)) : List (List Char) :=
  comps.foldl (normStep absolute) []

/-- The filter of `SimpleHTTPRequestHandler.translate_path`'s word loop:
    only simple file or directory names are joined onto the directory. -/
def isSimpleComp (comp : List Char) : Bool :=
  !(comp = [] ∨ comp = ['.'] ∨ comp = ['.', '.'])

/-- `SimpleHTTPRequestHandler.translate_path(path)`, as the list of path
    components joined below `self.directory`: the query string and fragment
    are discarded, the path is normalised by `posixpath.normpath`, and only
    simple components are kept.  (Percent-decoding precedes normalisation
    in the stdlib; theorems below quantify over all paths, hence over all
    decoded forms.  The trailing-slash marker does not affect which file is
    resolved.) -/
def translateSegs (path : String) : List String :=
  let noFrag := stripAfter '#' (stripAfter '?' path.data)
  let absolute : Bool := noFrag.head? = some '/'
  let comps := normComps absolute (splitSlash noFrag)
  (comps.filter isSimpleComp).map String.mk

/-- One step of operating-system path resolution: what the kernel would do
    with a `''`, `'.'` or `'..'` component when the string is finally
    opened.  Used to state that resolution of a translated path never
    leaves the root. -/
def fsStep (acc : List String) (s : String) : List String :=
  if s = "" ∨ s = "." then acc
  else if s = ".." then acc.dropLast
  else acc ++ [s]

/-- Operating-system resolution of a component list (symlinks aside). -/
def resolveFS (segs : List String) : List String :=
  segs.foldl fsStep []

/-- `self.directory`: `Path(__file__).parent / "frontend"` (line 20). -/
def frontendDir (env : Env) : List String :=
  env.scriptDir ++ ["frontend"]

/-- The file the static handler actually touches for a request path:
    the translated path below the frontend directory, as the operating
    system resolves it. -/
def staticTarget (env : Env) (path : String) : List String :=
  resolveFS (frontendDir env ++ translateSegs path)

/-- `SimpleHTTPRequestHandler.guess_type`, abridged to an extension table
    (the full stdlib table maps further extensions the same way). -/
def guessType (path : String) : String :=
  let l := (lowerStr path).data
  if ".html".data.isSuffixOf l then "text/html"
  else if ".css".data.isSuffixOf l then "text/css"
  else if ".js".data.isSuffixOf l then "text/javascript"
  else if ".json".data.isSuffixOf l then "application/json"
  else if ".png".data.isSuffixOf l then "image/png"
  else "application/octet-stream"

/-- `super().do_GET()` (line 31): `SimpleHTTPRequestHandler` serves the
    translated file below the frontend directory, or answers
    `send_error(404, "File not found")` when it does not exist.  No CORS
    headers are sent on this path.  (Directory listing/redirect and the
    `Last-Modified` header are below this model; `env.fs` maps resolved
    paths of regular files to their contents.) -/
def staticGet (env : Env) (req : Request) : Response × List Effect :=
  let t := staticTarget env req.path
  match env.fs t with
  | some content =>
    ({ status := 200
       reason := ""
       headers := [("Content-Type", guessType req.path),
                   ("Content-Length", toString content.length)]
       body := content },
     [Effect.fsRead t])
  | none => (sendError 404 "File not found", [Effect.fsRead t])

/-- `Path(__file__).parent / "frontend" / "templates" / "index.html"`
    (line 92). -/
def indexTarget (env : Env) : List String :=
  env.scriptDir ++ ["frontend", "templates", "index.html"]

/-- `serve_index` (lines 89-104): when the template exists its bytes are
    returned verbatim with `Content-Type: text/html` and the CORS headers;
    when `index_path.exists()` is false the handler answers
    `send_error(404, "index.html not found")`; when opening or reading
    raises, the `except` arm answers
    `send_error(500, f"Error serving index: {e}")`. -/
def serveIndex (env : Env) : Response × List Effect :=
  match env.indexFile with
  | FileState.readable c =>
    ({ status := 200
       reason := ""
       headers := ("Content-Type", "text/html") :: corsHeaders
       body := c },
     [Effect.fsRead (indexTarget env)])
  | FileState.absent =>
    (sendError 404 "index.html not found", [Effect.fsRead (indexTarget env)])
  | FileState.unreadable e =>
    (sendError 500 ("Error serving index: " ++ e), [Effect.fsRead (indexTarget env)])

/-- `do_GET` (lines 22-34). -/
def doGET (env : Env) (req : Request) : Response × List Effect :=
  if pyStartsWith req.path "/api/" then proxyToBackend env req
  else if pyStartsWith req.path "/read/" then proxyToBackend env req
  else if pyStartsWith req.path "/static/" then staticGet env req
  else serveIndex env

/-- `do_POST` (lines 36-41): `send_error(404)` uses the default message
    `"Not Found"` from the responses table. -/
def doPOST (env : Env) (req : Request) : Response × List Effect :=
  if pyStartsWith req.path "/api/" then proxyToBackend env req
  else (sendError 404 "Not Found", [])

/-- `do_OPTIONS` (lines 43-47): `200`, the CORS headers, no body; nothing
    else runs, so there are no effects. -/
def doOPTIONS : Response × List Effect :=
  ({ status := 200, reason := "", headers := corsHeaders, body := "" }, [])

/-- `do_HEAD`, inherited from `SimpleHTTPRequestHandler`: `send_head` runs
    as for a static GET but the body is not written. -/
def doHEAD (env : Env) (req : Request) : Response × List Effect :=
  let r := staticGet env req
  ({ r.1 with body := "" }, r.2)

/-- `BaseHTTPRequestHandler` method dispatch: the command selects
    `do_<command>`; a command with no such method is answered
    `send_error(501, "Unsupported method (%r)")`. -/
def handleRequest (env : Env) (req : Request) : Response × List Effect :=
  if req.method = "GET" then doGET env req
  else if req.method = "POST" then doPOST env req
  else if req.method = "OPTIONS" then doOPTIONS
  else if req.method = "HEAD" then doHEAD env req
  else (sendError 501 ("Unsupported method ('" ++ req.method ++ "')"), [])

/-! ### Concrete environments and requests used to instantiate theorems -/

/-- A healthy deployment: backend answers 200, index template present,
    static filesystem empty, script installed under `/srv`. -/
def sampleEnv : Env :=
  { backend := fun _ =>
      BackendResult.reply 200
        [("Content-Type", "application/json"), ("Content-Length", "2")] "[]"
    indexFile := FileState.readable "<html>fableflow</html>"
    fs := fun _ => none
    scriptDir := ["srv"] }

/-- Same deployment, but the backend answers 404 to everything. -/
def env404 : Env :=
  { sampleEnv with
    backend := fun _ =>
      BackendResult.reply 404 [("Content-Type", "text/plain")] "not found" }

/-- Same deployment, but the backend is unreachable. -/
def envDown : Env :=
  { sampleEnv with
    backend := fun _ => BackendResult.transportFailure "Connection refused" }

/-- Same deployment, but the index template file is missing. -/
def envAbsent : Env :=
  { sampleEnv with indexFile := FileState.absent }

/-- Same deployment, but reading the index template raises. -/
def envUnreadable : Env :=
  { sampleEnv with indexFile := FileState.unreadable "Permission denied" }

def reqApiBooks : Request :=
  { method := "GET", path := "/api/books", headers := [], wire := "" }

def reqPostFoo : Request :=
  { method := "POST", path := "/foo", headers := [], wire := "" }

def reqReadPost : Request :=
  { method := "POST", path := "/read/book/42", headers := [], wire := "" }

def reqOptions : Request :=
  { method := "OPTIONS", path := "/api/books", headers := [], wire := "" }

def reqRoot : Request :=
  { method := "GET", path := "/", headers := [], wire := "" }

def reqClientRoute : Request :=
  { method := "GET", path := "/some/client/route", headers := [], wire := "" }

def reqTraversal : Request :=
  { method := "GET", path := "/static/../../../etc/passwd", headers := [], wire := "" }

def reqWithBody : Request :=
  { method := "POST", path := "/api/books"
    headers := [("Content-Length", "5"), ("Authorization", "Bearer t")]
    wire := "hello world" }

def reqDupHeaders : Request :=
  { method := "GET", path := "/api/books"
    headers := [("X-Tag", "a"), ("X-Tag", "b")]
    wire := "" }

/-! ### Helper lemmas -/

/-- The static handler's only effect is one read of the translated target. -/
theorem staticGet_effects (env : Env) (req : Request) :
    (staticGet env req).2 = [Effect.fsRead (staticTarget env req.path)] := by
  unfold staticGet
  dsimp only
  split <;> rfl

/-- The index responder's only effect is one read of the template path. -/
theorem serveIndex_effects (env : Env) :
    (serveIndex env).2 = [Effect.fsRead (indexTarget env)] := by
  unfold serveIndex
  split <;> rfl

/-- The inherited HEAD handler has the static handler's effects. -/
theorem doHEAD_effects (env : Env) (req : Request) :
    (doHEAD env req).2 = [Effect.fsRead (staticTarget env req.path)] := by
  unfold doHEAD
  simp [staticGet_effects]

/-- The proxy's effect list: exactly one backend call carrying the
    constructed outbound request, none when building it raised. -/
theorem proxyToBackend_effects (env : Env) (req : Request) :
    (proxyToBackend env req).2 =
      match outboundOf req with
      | some out => [Effect.backendCall out]
      | none => [] := by
  unfold proxyToBackend outboundOf
  cases hcl : contentLengthOf req with
  | error e => rfl
  | ok cl =>
    cases hb : urlopenModel (env.backend (mkOutbound req (reqData req cl))) with
    | error e => simp [hb]
    | ok r => simp [hb]

/-- Any backend call the server ever performs carries the outbound request
    built by `proxy_to_backend` from the inbound one. -/
theorem backendCall_mem (env : Env) (req : Request) (out : OutboundRequest)
    (h : Effect.backendCall out ∈ (handleRequest env req).2) :
    outboundOf req = some out := by
  have hproxy : ∀ hp : Effect.backendCall out ∈ (proxyToBackend env req).2,
      outboundOf req = some out := by
    intro hp
    rw [proxyToBackend_effects] at hp
    cases ho : outboundOf req with
    | none => rw [ho] at hp; simp at hp
    | some o =>
      rw [ho] at hp
      simp at hp
      rw [hp]
  unfold handleRequest at h
  split at h
  · unfold doGET at h
    split at h
    · exact hproxy h
    · split at h
      · exact hproxy h
      · split at h
        · rw [staticGet_effects] at h; simp at h
        · rw [serveIndex_effects] at h; simp at h
  · split at h
    · unfold doPOST at h
      split at h
      · exact hproxy h
      · simp at h
    · split at h
      · simp [doOPTIONS] at h
      · split at h
        · rw [doHEAD_effects] at h; simp at h
        · simp at h

/-- With header names pairwise distinct case-insensitively, the
    case-insensitive first-match lookup of any listed header returns its
    own value. -/
theorem getHeader_self (hs : List (String × String))
    (hpw : List.Pairwise (fun p q => lowerStr p.1 ≠ lowerStr q.1) hs) :
    ∀ p ∈ hs, getHeader hs p.1 = some p.2 := by
  induction hs with
  | nil => intro p hp; simp at hp
  | cons q t ih =>
    intro p hp
    rcases List.mem_cons.1 hp with rfl | hp
    · unfold getHeader
      rw [List.find?_cons_of_pos _ (by simp)]
      rfl
    · have hq : (lowerStr q.1 == lowerStr p.1) = false := by
        simp only [beq_eq_false_iff_ne, ne_eq]
        exact fun heq => (List.pairwise_cons.1 hpw).1 p hp heq
      unfold getHeader
      simp only [List.find?]
      rw [hq]
      exact ih (List.pairwise_cons.1 hpw).2 p hp

/-- Folding dict assignment over entries whose keys are fresh and pairwise
    distinct, each carrying its own value, only appends them in order. -/
theorem foldl_dictInsert_fresh (f : String × String → String) :
    ∀ (hs acc : List (String × String)),
      (∀ p ∈ hs, f p = p.2) →
      (∀ p ∈ hs, ∀ q ∈ acc, q.1 ≠ p.1) →
      List.Pairwise (fun p q => p.1 ≠ q.1) hs →
      List.foldl (fun d p => dictInsert d p.1 (f p)) acc hs = acc ++ hs := by
  intro hs
  induction hs with
  | nil => intro acc _ _ _; simp
  | cons p t ih =>
    intro acc hf hdisj hpw
    have hfresh : acc.any (fun q => q.1 == p.1) = false := by
      rw [List.any_eq_false]
      intro q hq
      simp only [beq_iff_eq]
      exact hdisj p (List.mem_cons_self p t) q hq
    have hins : dictInsert acc p.1 (f p) = acc ++ [p] := by
      unfold dictInsert
      rw [if_neg (by rw [hfresh]; exact Bool.false_ne_true),
          hf p (List.mem_cons_self p t)]
    simp only [List.foldl_cons, hins]
    rw [ih (acc ++ [p]) (fun r hr => hf r (List.mem_cons_of_mem _ hr))
        ?_ (List.pairwise_cons.1 hpw).2]
    · simp
    · intro r hr q hq
      rcases List.mem_append.1 hq with hq | hq
      · exact hdisj r (List.mem_cons_of_mem _ hr) q hq
      · simp at hq
        rw [hq]
        exact (List.pairwise_cons.1 hpw).1 r hr

/-- On a request whose header names are pairwise distinct
    case-insensitively, `dict(self.headers)` is the identity. -/
theorem pyDictHeaders_of_ci_distinct (hs : List (String × String))
    (hpw : List.Pairwise (fun p q => lowerStr p.1 ≠ lowerStr q.1) hs) :
    pyDictHeaders hs = hs := by
  unfold pyDictHeaders
  have hf : ∀ p ∈ hs, (getHeader hs p.1).getD p.2 = p.2 := by
    intro p hp
    rw [getHeader_self hs hpw p hp]
    rfl
  have hpw' : List.Pairwise (fun p q => p.1 ≠ q.1) hs := by
    refine hpw.imp ?_
    intro p q hne heq
    exact hne (by rw [heq])
  have hfold := foldl_dictInsert_fresh (fun p => (getHeader hs p.1).getD p.2)
    hs [] hf (by simp) hpw'
  simpa using hfold

/-! ### Claim theorems -/

/-- C1: The spec claims that any backend HTTP status (including 4xx/5xx) is
passed through to the client unchanged, with only transport-level failures
producing an error response.  The code calls `urllib.request.urlopen`, which
raises `HTTPError` for any non-2xx status; the blanket `except` arm then
answers `send_error(502, ...)`.  At the failing input — backend answers 404
to `GET /api/books` — the client receives 502 with reason
`Backend connection failed: HTTP Error 404`, not the backend's 404. -/
theorem c1_backend_status_not_passed_through :
    (handleRequest env404 reqApiBooks).1.status = 502 ∧
    (handleRequest env404 reqApiBooks).1.status ≠ 404 ∧
    (handleRequest env404 reqApiBooks).1.reason =
      "Backend connection failed: HTTP Error 404" := by
  refine ⟨rfl, by decide, rfl⟩

/-- C2 counterexample: the claim says every response carries the three CORS
headers, but the 404 produced by `send_error` for `POST /foo` carries none
of them (and `send_cors_headers` is likewise never called on the static
path or any other `send_error` path). -/
theorem c2_counterexample :
    ("Access-Control-Allow-Origin", "*") ∈ corsHeaders ∧
    ("Access-Control-Allow-Origin", "*") ∉
      (handleRequest sampleEnv reqPostFoo).1.headers := by
  decide

/-- C2 (amended): the three CORS headers appear, with exactly the specified
values, on the OPTIONS preflight response, on the successful index
response, and on the successful proxy relay; responses produced by
`send_error` (404/500/501/502) and by the static file handler carry no
CORS header at all. -/
theorem c2_cors_only_on_success_paths (env : Env) (req : Request) :
    (req.method = "OPTIONS" → (handleRequest env req).1.headers = corsHeaders)
  ∧ (∀ c, env.indexFile = FileState.readable c →
      (serveIndex env).1.headers = ("Content-Type", "text/html") :: corsHeaders)
  ∧ (∀ cl s hs b, contentLengthOf req = Except.ok cl →
      env.backend (mkOutbound req (reqData req cl)) = BackendResult.reply s hs b →
      200 ≤ s → s < 300 →
      corsHeaders <+: (proxyToBackend env req).1.headers)
  ∧ (∀ code msg p, p ∈ (sendError code msg).headers →
      p.1 ≠ "Access-Control-Allow-Origin")
  ∧ (∀ p, p ∈ (staticGet env req).1.headers →
      p.1 ≠ "Access-Control-Allow-Origin") := by
  refine ⟨?_, ?_, ?_, ?_, ?_⟩
  · intro h
    unfold handleRequest
    rw [h]
    simp [doOPTIONS]
  · intro c hc
    unfold serveIndex
    rw [hc]
  · intro cl s hs b hcl hb h1 h2
    have hopen : urlopenModel (env.backend (mkOutbound req (reqData req cl))) =
        Except.ok (s, hs, b) := by
      rw [hb]
      simp [urlopenModel, h1, h2]
    unfold proxyToBackend
    rw [hcl]
    dsimp only
    rw [hopen]
    exact List.prefix_append _ _
  · intro code msg p hp
    unfold sendError at hp
    simp at hp
    rcases hp with hp | hp <;> rw [hp] <;> intro hcontra <;>
      exact absurd hcontra (by decide)
  · intro p hp
    unfold staticGet at hp
    dsimp only at hp
    rcases hfs : env.fs (staticTarget env req.path) with _ | content <;>
      rw [hfs] at hp
    · unfold sendError at hp
      simp at hp
      rcases hp with hp | hp <;> rw [hp] <;> intro hcontra <;>
        exact absurd hcontra (by decide)
    · simp at hp
      rcases hp with hp | hp <;> rw [hp] <;> intro hcontra <;>
        dsimp only at hcontra <;> exact absurd hcontra (by decide)

/-- C2 witness: the amended theorem applied to the healthy deployment, for
the OPTIONS preflight and the index success path. -/
theorem c2_cors_witness :
    (handleRequest sampleEnv reqOptions).1.headers = corsHeaders ∧
    (serveIndex sampleEnv).1.headers =
      ("Content-Type", "text/html") :: corsHeaders :=
  ⟨(c2_cors_only_on_success_paths sampleEnv reqOptions).1 rfl,
   (c2_cors_only_on_success_paths sampleEnv reqOptions).2.1
     "<html>fableflow</html>" rfl⟩

/-- C3 counterexample: the claim says `/read/` paths are proxied for every
method, and that unmatched non-GET requests fail with MethodNotAllowed
(405).  On the code, `POST /read/book/42` — with a healthy backend — is
answered 404 by `do_POST` with no backend call at all, and the status is
404, not 405. -/
theorem c3_counterexample :
    (handleRequest sampleEnv reqReadPost).1.status = 404 ∧
    (handleRequest sampleEnv reqReadPost).2 = [] ∧
    (handleRequest sampleEnv reqReadPost).1.status ≠ 405 := by
  decide

/-- C3 (amended): the router selects exactly one handling path: `/api/`
paths are proxied for GET and POST; `/read/` paths are proxied for GET
only; `/static/` GET requests are served from the static root; any other
GET receives the index document; a POST to any non-`/api/` path (including
`/read/` and `/static/`) is answered 404 NotFound; OPTIONS is answered by
the preflight handler; HEAD is served by the inherited static file
handler; any other method is answered `501 Unsupported method`. -/
theorem c3_routing (env : Env) (req : Request) :
    (req.method = "GET" → pyStartsWith req.path "/api/" = true →
      handleRequest env req = proxyToBackend env req)
  ∧ (req.method = "GET" → pyStartsWith req.path "/api/" = false →
      pyStartsWith req.path "/read/" = true →
      handleRequest env req = proxyToBackend env req)
  ∧ (req.method = "GET" → pyStartsWith req.path "/api/" = false →
      pyStartsWith req.path "/read/" = false →
      pyStartsWith req.path "/static/" = true →
      handleRequest env req = staticGet env req)
  ∧ (req.method = "GET" → pyStartsWith req.path "/api/" = false →
      pyStartsWith req.path "/read/" = false →
      pyStartsWith req.path "/static/" = false →
      handleRequest env req = serveIndex env)
  ∧ (req.method = "POST" → pyStartsWith req.path "/api/" = true →
      handleRequest env req = proxyToBackend env req)
  ∧ (req.method = "POST" → pyStartsWith req.path "/api/" = false →
      handleRequest env req = (sendError 404 "Not Found", []))
  ∧ (req.method = "OPTIONS" → handleRequest env req = doOPTIONS)
  ∧ (req.method = "HEAD" → handleRequest env req = doHEAD env req)
  ∧ (req.method ≠ "GET" → req.method ≠ "POST" → req.method ≠ "OPTIONS" →
      req.method ≠ "HEAD" →
      handleRequest env req =
        (sendError 501 ("Unsupported method ('" ++ req.method ++ "')"), [])) := by
  refine ⟨?_, ?_, ?_, ?_, ?_, ?_, ?_, ?_, ?_⟩
  · intro h ha
    unfold handleRequest doGET
    rw [h]
    simp [ha]
  · intro h ha hr
    unfold handleRequest doGET
    rw [h]
    simp [ha, hr]
  · intro h ha hr hs
    unfold handleRequest doGET
    rw [h]
    simp [ha, hr, hs]
  · intro h ha hr hs
    unfold handleRequest doGET
    rw [h]
    simp [ha, hr, hs]
  · intro h ha
    unfold handleRequest doPOST
    rw [h]
    simp [ha]
  · intro h ha
    unfold handleRequest doPOST
    rw [h]
    simp [ha]
  · intro h
    unfold handleRequest
    rw [h]
    simp
  · intro h
    unfold handleRequest
    rw [h]
    simp
  · intro hg hp ho hh
    unfold handleRequest
    rw [if_neg hg, if_neg hp, if_neg ho, if_neg hh]

/-- C3 witness: the amended routing applied to `GET /api/books` (proxied)
and `POST /foo` (404 with no proxy attempt). -/
theorem c3_routing_witness :
    handleRequest sampleEnv reqApiBooks = proxyToBackend sampleEnv reqApiBooks ∧
    handleRequest sampleEnv reqPostFoo = (sendError 404 "Not Found", []) :=
  ⟨(c3_routing sampleEnv reqApiBooks).1 rfl (by decide),
   (c3_routing sampleEnv reqPostFoo).2.2.2.2.2.1 rfl (by decide)⟩

/-- C4 counterexample: the claim says a missing index template yields 500.
On the code, `serve_index` checks `index_path.exists()` first and answers
`send_error(404, "index.html not found")`: a `GET /` with the template
missing is answered 404, not 500. -/
theorem c4_counterexample :
    (handleRequest envAbsent reqRoot).1.status = 404 ∧
    (handleRequest envAbsent reqRoot).1.status ≠ 500 ∧
    (handleRequest envAbsent reqRoot).1.reason = "index.html not found" := by
  decide

/-- C4 (amended): a missing index template is answered
`404 index.html not found`; only when the file exists but opening or
reading it raises does the responder fail with InternalError 500. -/
theorem c4_index_error_codes (env : Env) :
    (env.indexFile = FileState.absent →
      (serveIndex env).1.status = 404 ∧
      (serveIndex env).1.reason = "index.html not found")
  ∧ (∀ e, env.indexFile = FileState.unreadable e →
      (serveIndex env).1.status = 500 ∧
      (serveIndex env).1.reason = "Error serving index: " ++ e) := by
  constructor
  · intro h
    unfold serveIndex
    rw [h]
    exact ⟨rfl, rfl⟩
  · intro e h
    unfold serveIndex
    rw [h]
    exact ⟨rfl, rfl⟩

/-- C4 witness: the amended theorem applied to the deployment with the
template missing and to the one where reading it raises. -/
theorem c4_index_error_witness :
    ((serveIndex envAbsent).1.status = 404 ∧
      (serveIndex envAbsent).1.reason = "index.html not found") ∧
    ((serveIndex envUnreadable).1.status = 500 ∧
      (serveIndex envUnreadable).1.reason =
        "Error serving index: " ++ "Permission denied") :=
  ⟨(c4_index_error_codes envAbsent).1 rfl,
   (c4_index_error_codes envUnreadable).2 "Permission denied" rfl⟩

/-- C5 counterexample: the claim says all inbound headers are forwarded
as-is, but line 67's `dict(self.headers)` collapses duplicate header
names to the first value.  A proxied `GET /api/books` carrying
`X-Tag: a` and `X-Tag: b` performs its backend call with the single
header `X-Tag: a` — not the inbound header list. -/
theorem c5_counterexample :
    (handleRequest sampleEnv reqDupHeaders).2 =
      [Effect.backendCall (mkOutbound reqDupHeaders none)] ∧
    (mkOutbound reqDupHeaders none).headers = [("X-Tag", "a")] ∧
    (mkOutbound reqDupHeaders none).headers ≠ reqDupHeaders.headers := by
  decide

/-- C5 (amended): every backend call the server performs carries the
inbound request's method, its path (query string included) appended to
`http://localhost:8080`, its body under the Content-Length framing of
lines 56-60, and the inbound headers after `dict(self.headers)`
conversion — duplicate occurrences of a header name collapse to a single
entry carrying the first value; on a request whose header names are
pairwise distinct (case-insensitively), the headers are forwarded
verbatim.  Nothing else is changed. -/
theorem c5_proxy_forwarding (env : Env) (req : Request)
    (out : OutboundRequest)
    (h : Effect.backendCall out ∈ (handleRequest env req).2) :
    out.method = req.method ∧
    out.url = "http://localhost:8080" ++ req.path ∧
    out.headers = pyDictHeaders req.headers ∧
    out.data = inboundBody req ∧
    (List.Pairwise (fun p q => lowerStr p.1 ≠ lowerStr q.1) req.headers →
      out.headers = req.headers) := by
  have hout := backendCall_mem env req out h
  unfold outboundOf at hout
  cases hcl : contentLengthOf req with
  | error e =>
    rw [hcl] at hout
    simp at hout
  | ok cl =>
    rw [hcl] at hout
    simp only [Option.some.injEq] at hout
    rw [← hout]
    refine ⟨rfl, rfl, rfl, ?_, ?_⟩
    · unfold inboundBody
      rw [hcl]
      rfl
    · intro hpw
      exact pyDictHeaders_of_ci_distinct req.headers hpw

/-- C5 witness: a proxied `POST /api/books` with `Content-Length: 5`,
`hello world` on the stream and two distinctly named headers yields one
backend call forwarding the method, URL, five-byte body, and — the names
being distinct — the headers verbatim. -/
theorem c5_forwarding_witness :
    Effect.backendCall (mkOutbound reqWithBody (some "hello")) ∈
      (handleRequest sampleEnv reqWithBody).2 ∧
    (mkOutbound reqWithBody (some "hello")).method = reqWithBody.method ∧
    (mkOutbound reqWithBody (some "hello")).url =
      "http://localhost:8080" ++ reqWithBody.path ∧
    (mkOutbound reqWithBody (some "hello")).data = inboundBody reqWithBody ∧
    (mkOutbound reqWithBody (some "hello")).headers = reqWithBody.headers :=
  ⟨by decide,
   (c5_proxy_forwarding sampleEnv reqWithBody
     (mkOutbound reqWithBody (some "hello")) (by decide)).1,
   (c5_proxy_forwarding sampleEnv reqWithBody
     (mkOutbound reqWithBody (some "hello")) (by decide)).2.1,
   (c5_proxy_forwarding sampleEnv reqWithBody
     (mkOutbound reqWithBody (some "hello")) (by decide)).2.2.2.1,
   (c5_proxy_forwarding sampleEnv reqWithBody
     (mkOutbound reqWithBody (some "hello")) (by decide)).2.2.2.2 (by decide)⟩

/-- C6: when the backend call fails at transport level, the client receives
502 with a message containing the underlying failure description, and the
handler made exactly one backend attempt — no retry. -/
theorem c6_transport_failure_502 (env : Env) (req : Request) (cl : Int)
    (msg : String)
    (hroute : handleRequest env req = proxyToBackend env req)
    (hcl : contentLengthOf req = Except.ok cl)
    (hfail : env.backend (mkOutbound req (reqData req cl)) =
      BackendResult.transportFailure msg) :
    (handleRequest env req).1.status = 502 ∧
    (∃ pre, (handleRequest env req).1.reason = pre ++ msg) ∧
    (handleRequest env req).2 =
      [Effect.backendCall (mkOutbound req (reqData req cl))] := by
  have hopen : urlopenModel (env.backend (mkOutbound req (reqData req cl))) =
      Except.error msg := by
    rw [hfail]
    rfl
  rw [hroute]
  unfold proxyToBackend
  rw [hcl]
  dsimp only
  rw [hopen]
  exact ⟨rfl, ⟨"Backend connection failed: ", rfl⟩, rfl⟩

/-- C6 witness: with the backend refusing connections, `GET /api/books`
yields 502, a reason ending in `Connection refused`, and a single backend
attempt. -/
theorem c6_transport_failure_witness :
    (handleRequest envDown reqApiBooks).1.status = 502 ∧
    (∃ pre, (handleRequest envDown reqApiBooks).1.reason =
      pre ++ "Connection refused") ∧
    (handleRequest envDown reqApiBooks).2 =
      [Effect.backendCall (mkOutbound reqApiBooks (reqData reqApiBooks 0))] :=
  c6_transport_failure_502 envDown reqApiBooks 0 "Connection refused"
    rfl rfl rfl

/-- C8: an OPTIONS request on any path is answered 200 with an empty body
and exactly the CORS headers, and the handler performs no effect at all:
no backend call and no filesystem read. -/
theorem c8_options_preflight (env : Env) (req : Request)
    (h : req.method = "OPTIONS") :
    (handleRequest env req).1.status = 200 ∧
    (handleRequest env req).1.body = "" ∧
    (handleRequest env req).1.headers = corsHeaders ∧
    (handleRequest env req).2 = [] := by
  unfold handleRequest
  rw [h]
  simp [doOPTIONS]

/-- C8 witness: `OPTIONS /api/books` — a path that would otherwise be
proxied — is answered by the preflight handler without any effect. -/
theorem c8_options_witness :
    (handleRequest sampleEnv reqOptions).1.status = 200 ∧
    (handleRequest sampleEnv reqOptions).1.body = "" ∧
    (handleRequest sampleEnv reqOptions).1.headers = corsHeaders ∧
    (handleRequest sampleEnv reqOptions).2 = [] :=
  c8_options_preflight sampleEnv reqOptions rfl

/-- C9: two GET requests whose paths match none of the three prefixes —
`/` and any client-side route — receive the very same response: the index
template's bytes verbatim, status 200, `Content-Type: text/html`. -/
theorem c9_index_same_bytes (env : Env) (r1 r2 : Request) (c : String)
    (h1m : r1.method = "GET") (h2m : r2.method = "GET")
    (h1a : pyStartsWith r1.path "/api/" = false)
    (h1r : pyStartsWith r1.path "/read/" = false)
    (h1s : pyStartsWith r1.path "/static/" = false)
    (h2a : pyStartsWith r2.path "/api/" = false)
    (h2r : pyStartsWith r2.path "/read/" = false)
    (h2s : pyStartsWith r2.path "/static/" = false)
    (hidx : env.indexFile = FileState.readable c) :
    (handleRequest env r1).1 = (handleRequest env r2).1 ∧
    (handleRequest env r1).1.body = c ∧
    (handleRequest env r1).1.status = 200 ∧
    ("Content-Type", "text/html") ∈ (handleRequest env r1).1.headers := by
  have e1 : handleRequest env r1 = serveIndex env := by
    unfold handleRequest doGET
    rw [h1m]
    simp [h1a, h1r, h1s]
  have e2 : handleRequest env r2 = serveIndex env := by
    unfold handleRequest doGET
    rw [h2m]
    simp [h2a, h2r, h2s]
  rw [e1, e2]
  unfold serveIndex
  rw [hidx]
  exact ⟨rfl, rfl, rfl, List.mem_cons_self _ _⟩

/-- C9 witness: `GET /` and `GET /some/client/route` on the healthy
deployment both receive the template bytes. -/
theorem c9_index_witness :
    (handleRequest sampleEnv reqRoot).1 =
      (handleRequest sampleEnv reqClientRoute).1 ∧
    (handleRequest sampleEnv reqRoot).1.body = "<html>fableflow</html>" ∧
    (handleRequest sampleEnv reqRoot).1.status = 200 ∧
    ("Content-Type", "text/html") ∈ (handleRequest sampleEnv reqRoot).1.headers :=
  c9_index_same_bytes sampleEnv reqRoot reqClientRoute "<html>fableflow</html>"
    rfl rfl (by decide) (by decide) (by decide) (by decide) (by decide)
    (by decide) rfl

/-- C10: the proxied body is exactly the first Content-Length bytes of the
inbound stream; with the header absent, zero, or negative, no body at all
is forwarded — whatever the method and whatever bytes sit on the
connection. -/
theorem c10_body_framing (req : Request) :
    (getHeader req.headers "Content-Length" = none → inboundBody req = none)
  ∧ (∀ v n, getHeader req.headers "Content-Length" = some v →
      pyInt? v = some n →
      ((0 < n → inboundBody req = some (strTake req.wire n.toNat)) ∧
       (n ≤ 0 → inboundBody req = none))) := by
  constructor
  · intro h
    unfold inboundBody contentLengthOf
    rw [h]
    simp [reqData]
  · intro v n hv hn
    unfold inboundBody contentLengthOf
    rw [hv]
    dsimp only
    rw [hn]
    dsimp only
    constructor
    · intro hpos
      simp [reqData, hpos]
    · intro hle
      simp only [reqData]
      rw [if_neg (not_lt.2 hle)]

/-- C10 witness: with `Content-Length: 5` and `hello world` on the stream
the forwarded body is `hello`; with no Content-Length header no body is
forwarded even though bytes sit on the connection. -/
theorem c10_body_framing_witness :
    inboundBody reqWithBody = some (strTake reqWithBody.wire ((5 : Int)).toNat) ∧
    inboundBody { reqApiBooks with wire := "stray bytes" } = none :=
  ⟨((c10_body_framing reqWithBody).2 "5" 5 rfl rfl).1 (by decide),
   (c10_body_framing { reqApiBooks with wire := "stray bytes" }).1 rfl⟩

/-- Every component that survives `translate_path`'s word filter is a plain
file or directory name: not empty, not `.`, not `..`. -/
theorem translateSegs_simple (p : String) :
    ∀ s ∈ translateSegs p, ¬(s = "" ∨ s = "." ∨ s = "..") := by
  intro s hs
  unfold translateSegs at hs
  simp only [List.mem_map] at hs
  obtain ⟨cs, hcs, hmk⟩ := hs
  have hsimple : isSimpleComp cs = true := List.of_mem_filter hcs
  unfold isSimpleComp at hsimple
  simp only [Bool.not_eq_true', decide_eq_false_iff_not] at hsimple
  push_neg at hsimple
  obtain ⟨h1, h2, h3⟩ := hsimple
  subst hmk
  rintro (h | h | h)
  · exact h1 (congrArg String.data h)
  · exact h2 (congrArg String.data h)
  · exact h3 (congrArg String.data h)

/-- Folding OS path resolution over plain names only appends them. -/
theorem foldl_fsStep_clean (l : List String) :
    ∀ acc, (∀ s ∈ l, ¬(s = "" ∨ s = "." ∨ s = "..")) →
      List.foldl fsStep acc l = acc ++ l := by
  induction l with
  | nil => intro acc _; simp
  | cons x xs ih =>
    intro acc h
    have hx := h x (List.mem_cons_self x xs)
    push_neg at hx
    obtain ⟨hx1, hx2, hx3⟩ := hx
    have hstep : fsStep acc x = acc ++ [x] := by
      unfold fsStep
      rw [if_neg (by rintro (hc | hc) <;> [exact hx1 hc; exact hx2 hc]),
          if_neg hx3]
    simp only [List.foldl_cons, hstep]
    rw [ih (acc ++ [x]) (fun s hs => h s (List.mem_cons_of_mem _ hs))]
    simp

/-- C7: for every request path — `..` segments, query strings and all —
the file the static handler touches resolves inside the frontend root:
the translated path contains no special component (so OS resolution is
plain concatenation below the root), the root is a prefix of the resolved
target, the handler's only filesystem access is that single target, and a
target that does not exist is answered 404.  The server can therefore
never return the contents of a file outside the root. -/
theorem c7_traversal_safety (env : Env) (req : Request)
    (hclean : ∀ s ∈ env.scriptDir, ¬(s = "" ∨ s = "." ∨ s = "..")) :
    staticTarget env req.path = frontendDir env ++ translateSegs req.path ∧
    frontendDir env <+: staticTarget env req.path ∧
    (staticGet env req).2 = [Effect.fsRead (staticTarget env req.path)] ∧
    (env.fs (staticTarget env req.path) = none →
      (staticGet env req).1.status = 404) := by
  have hall : ∀ s ∈ frontendDir env ++ translateSegs req.path,
      ¬(s = "" ∨ s = "." ∨ s = "..") := by
    intro s hs
    rcases List.mem_append.1 hs with h | h
    · unfold frontendDir at h
      rcases List.mem_append.1 h with h | h
      · exact hclean s h
      · simp at h
        subst h
        rintro (hc | hc | hc) <;> exact absurd hc (by decide)
    · exact translateSegs_simple req.path s h
  have htarget : staticTarget env req.path =
      frontendDir env ++ translateSegs req.path := by
    unfold staticTarget resolveFS
    rw [foldl_fsStep_clean _ [] hall]
    simp
  refine ⟨htarget, ?_, staticGet_effects env req, ?_⟩
  · rw [htarget]
    exact List.prefix_append _ _
  · intro hfs
    unfold staticGet
    dsimp only
    rw [hfs]
    rfl

/-- C7 witness: `GET /static/../../../etc/passwd` on the healthy
deployment resolves below the frontend root and is answered 404. -/
theorem c7_traversal_witness :
    frontendDir sampleEnv <+: staticTarget sampleEnv reqTraversal.path ∧
    (staticGet sampleEnv reqTraversal).1.status = 404 :=
  ⟨(c7_traversal_safety sampleEnv reqTraversal (by decide)).2.1,
   (c7_traversal_safety sampleEnv reqTraversal (by decide)).2.2.2 rfl⟩

end FableFlow
